import Mathlib

/-!
Shallow embedding of the task scheduler in `src/node_threadpool.cc` and
`src/node_platform.cc` (namespaces `node::threadpool` and `node`), together
with theorems checking the natural-language specification against it.

Modelling conventions:
- Machine integers are `Int`/`Nat`; the `double` delay computation is
  modelled over `ℚ` (a C `static_cast<uint64_t>` of a nonnegative value is
  `Int.floor`).
- Mutex-protected operations are modelled as pure state transformers: every
  operation of `TaskState`, `TaskQueue` and the platform map holds one lock
  for its whole body, so a concurrent history linearizes into a sequence of
  these atomic steps.
- `CHECK`-style aborts are modelled by `Option` where a claim exercises them,
  and otherwise left as preconditions of the theorems.
-/

namespace node
namespace threadpool

/-- The task lifecycle states of `TaskState::State`
(`src/node_threadpool.h`, used throughout `src/node_threadpool.cc`). -/
inductive State where
  | INITIAL
  | QUEUED
  | ASSIGNED
  | CANCELLED
  | COMPLETED
deriving DecidableEq, Repr

/-- `TaskState::ValidStateTransition` (node_threadpool.cc lines 103-122):
the legal transition table. -/
def ValidStateTransition : State → State → Bool
  | .INITIAL, n => n == .QUEUED || n == .CANCELLED
  | .QUEUED, n => n == .ASSIGNED || n == .CANCELLED
  | .ASSIGNED, n => n == .COMPLETED || n == .CANCELLED
  | .CANCELLED, n => n == .COMPLETED
  | .COMPLETED, _ => false

/-- `TaskState::TryUpdateState` (node_threadpool.cc lines 95-101): under the
lock, write `new_state` if the transition is valid; return the post-operation
state. -/
def TryUpdateState (state : State) (new_state : State) : State :=
  if ValidStateTransition state new_state then new_state else state

/-- `TaskState::Cancel` (node_threadpool.cc lines 86-93): attempt the
transition to CANCELLED; succeed iff the post-attempt state is CANCELLED.
Returns (post state, success). -/
def Cancel (state : State) : State × Bool :=
  let s2 := TryUpdateState state .CANCELLED
  (s2, s2 == .CANCELLED)

/-- The observed post-operation states of a sequence of `TryUpdateState`
calls with the given requested states, starting from `s`. -/
def runRequests (s : State) : List State → List State
  | [] => []
  | r :: rs =>
    let s2 := TryUpdateState s r
    s2 :: runRequests s2 rs

/-- One step of the observed-state path: either the state is unchanged
(an illegal request was a no-op) or the pair is an edge of the
legal-transition graph. -/
def WalkStep (a b : State) : Prop :=
  a = b ∨ ValidStateTransition a b = true

theorem tryUpdateState_valid (s n : State) (h : ValidStateTransition s n = true) :
    TryUpdateState s n = n := by
  simp [TryUpdateState, h]

theorem tryUpdateState_invalid (s n : State) (h : ValidStateTransition s n = false) :
    TryUpdateState s n = s := by
  simp [TryUpdateState, h]

theorem runRequests_walk (reqs : List State) (s : State) :
    List.Chain' WalkStep (s :: runRequests s reqs) := by
  induction reqs generalizing s with
  | nil => simp [runRequests]
  | cons r rs ih =>
    have hstep : WalkStep s (TryUpdateState s r) := by
      by_cases h : ValidStateTransition s r = true
      · exact Or.inr (by rw [tryUpdateState_valid s r h]; exact h)
      · left
        rw [tryUpdateState_invalid s r (by simpa using h)]
    simpa [runRequests] using List.Chain'.cons' (ih (TryUpdateState s r)) (by
      intro y hy
      simp [runRequests] at hy
      rw [← hy]
      exact hstep)

/-- C1: every sequence of `try_transition` calls produces an observed-state
path that is a walk on the legal-transition graph (each step is either a
no-op or an edge), and each call writes `new_state` iff the requested pair is
an edge, always returning the post-operation state: the new state on a legal
request, the unchanged current state on an illegal one. -/
theorem c1_try_transition_walk (reqs : List State) (s : State) :
    List.Chain' WalkStep (s :: runRequests s reqs) ∧
    ∀ c n : State,
      (ValidStateTransition c n = true → TryUpdateState c n = n) ∧
      (ValidStateTransition c n = false → TryUpdateState c n = c) := by
  refine ⟨runRequests_walk reqs s, ?_⟩
  intro c n
  exact ⟨tryUpdateState_valid c n, tryUpdateState_invalid c n⟩

/-- Witness for C1 at a concrete run: starting from INITIAL with requests
[QUEUED, COMPLETED, ASSIGNED], the observed path is a walk, and the two
transition clauses hold at concrete edges. -/
theorem c1_try_transition_walk_witness :
    List.Chain' WalkStep
      (State.INITIAL :: runRequests .INITIAL [.QUEUED, .COMPLETED, .ASSIGNED]) ∧
    TryUpdateState .INITIAL .QUEUED = .QUEUED ∧
    TryUpdateState .QUEUED .COMPLETED = .QUEUED :=
  ⟨(c1_try_transition_walk [.QUEUED, .COMPLETED, .ASSIGNED] .INITIAL).1,
   ((c1_try_transition_walk [] .INITIAL).2 .INITIAL .QUEUED).1 (by decide),
   ((c1_try_transition_walk [] .INITIAL).2 .QUEUED .COMPLETED).2 (by decide)⟩

/-- `n` concurrent `Cancel` calls serialized against the state lock:
each one is one atomic `TryUpdateState CANCELLED` (node_threadpool.cc
lines 86-93, 95-101). -/
def cancels (n : Nat) (s : State) : State :=
  (fun t => TryUpdateState t .CANCELLED)^[n] s

theorem cancels_zero (s : State) : cancels 0 s = s := rfl

theorem cancels_succ (n : Nat) (s : State) :
    cancels (n + 1) s = cancels n (TryUpdateState s .CANCELLED) := by
  simp [cancels, Function.iterate_succ_apply]

/-- From QUEUED, ASSIGNED or CANCELLED, any number of cancel attempts leaves
the state unchanged (zero attempts) or CANCELLED. -/
theorem cancels_cases (n : Nat) (s : State)
    (h : s = .QUEUED ∨ s = .ASSIGNED ∨ s = .CANCELLED) :
    cancels n s = s ∨ cancels n s = .CANCELLED := by
  induction n generalizing s with
  | zero => exact Or.inl (cancels_zero s)
  | succ m ih =>
    rw [cancels_succ]
    have hc : TryUpdateState s .CANCELLED = .CANCELLED := by
      rcases h with h | h | h <;> subst h <;> decide
    rw [hc]
    rcases ih .CANCELLED (Or.inr (Or.inr rfl)) with h2 | h2 <;> exact Or.inr h2

/-- C3: in the worker loop of `Worker::_Run` (node_threadpool.cc lines
40-56), for every interleaving of the worker with concurrent `Cancel` calls
on the popped task's TaskState — modelled as `n` serialized cancels before
the worker's `TryUpdateState(ASSIGNED)` and `m` after it, starting from the
post-pop state QUEUED or CANCELLED — the worker's final
`TryUpdateState(COMPLETED)` returns COMPLETED, and whenever the
`TryUpdateState(ASSIGNED)` call does not return ASSIGNED it returns exactly
CANCELLED. -/
theorem c3_worker_assert_holds (n m : Nat) (s0 : State)
    (h0 : s0 = .QUEUED ∨ s0 = .CANCELLED) :
    TryUpdateState (cancels m (TryUpdateState (cancels n s0) .ASSIGNED))
        .COMPLETED = .COMPLETED ∧
    (TryUpdateState (cancels n s0) .ASSIGNED ≠ .ASSIGNED →
      TryUpdateState (cancels n s0) .ASSIGNED = .CANCELLED) := by
  have h1 : cancels n s0 = .QUEUED ∨ cancels n s0 = .CANCELLED := by
    rcases cancels_cases n s0 (by tauto) with h | h
    · rw [h]; exact h0
    · exact Or.inr h
  have h2 : TryUpdateState (cancels n s0) .ASSIGNED = .ASSIGNED ∨
      TryUpdateState (cancels n s0) .ASSIGNED = .CANCELLED := by
    rcases h1 with h | h <;> rw [h] <;> decide
  have h3 : cancels m (TryUpdateState (cancels n s0) .ASSIGNED) = .ASSIGNED ∨
      cancels m (TryUpdateState (cancels n s0) .ASSIGNED) = .CANCELLED := by
    rcases cancels_cases m (TryUpdateState (cancels n s0) .ASSIGNED)
        (by tauto) with h | h
    · rw [h]; exact h2
    · exact Or.inr h
  constructor
  · rcases h3 with h | h <;> rw [h] <;> decide
  · intro hne
    rcases h2 with h | h
    · exact absurd h hne
    · exact h

/-- Witness for C3: one cancel lands between pop and the worker's ASSIGNED
attempt (n = 1, m = 0, starting from QUEUED): the assignment attempt returns
CANCELLED and the final COMPLETED attempt still returns COMPLETED. -/
theorem c3_worker_assert_holds_witness :
    TryUpdateState (cancels 0 (TryUpdateState (cancels 1 .QUEUED) .ASSIGNED))
        .COMPLETED = .COMPLETED ∧
    (TryUpdateState (cancels 1 .QUEUED) .ASSIGNED ≠ .ASSIGNED →
      TryUpdateState (cancels 1 .QUEUED) .ASSIGNED = .CANCELLED) :=
  c3_worker_assert_holds 1 0 .QUEUED (Or.inl rfl)

/-! Sequential model of `TaskQueue`, `Worker::_Run` and `Threadpool`
(node_threadpool.cc). Tasks are identified by `Nat` ids; `states` maps each
id to its TaskState, `ran` records the ids whose `Run()` was invoked, and
`signals` counts `task_available_.Signal` calls. All queue operations hold
the queue lock for their whole body, so a concurrent history linearizes into
a sequence of these steps. -/

structure TPState where
  states : Nat → State
  queue : List Nat
  outstanding : Int
  stopped : Bool
  signals : Nat
  ran : List Nat
  nextId : Nat

/-- Pointwise update of the task-state map. -/
def updState (f : Nat → State) (i : Nat) (v : State) : Nat → State :=
  fun j => if j = i then v else f j

theorem updState_same (f : Nat → State) (i : Nat) (v : State) :
    updState f i v i = v := by simp [updState]

theorem updState_other (f : Nat → State) (i j : Nat) (v : State) (h : j ≠ i) :
    updState f i v j = f j := by simp [updState, h]

/-- `TaskQueue::Push` (node_threadpool.cc lines 275-292): if stopped, return
false without enqueueing; otherwise move the task's state to QUEUED via
`TryUpdateState`, enqueue it, increment `outstanding_tasks_`, signal one
waiter, and return true. -/
def Push (st : TPState) (tid : Nat) : TPState × Bool :=
  if st.stopped then (st, false)
  else
    let s2 := TryUpdateState (st.states tid) .QUEUED
    ({ st with
        states := updState st.states tid s2
        queue := st.queue ++ [tid]
        outstanding := st.outstanding + 1
        signals := st.signals + 1 }, true)

/-- `TaskQueue::BlockingPop` (node_threadpool.cc lines 306-320), modelled at
a point where the wait loop has exited (the queue is non-empty or the queue
is stopped): return none on an empty queue, else pop and return the front
task. -/
def BlockingPop (st : TPState) : TPState × Option Nat :=
  match st.queue with
  | [] => (st, none)
  | t :: rest => ({ st with queue := rest }, some t)

/-- `TaskQueue::NotifyOfCompletion` (node_threadpool.cc lines 322-329):
decrement `outstanding_tasks_`. -/
def NotifyOfCompletion (st : TPState) : TPState :=
  { st with outstanding := st.outstanding - 1 }

/-- `TaskQueue::Stop` (node_threadpool.cc lines 339-343): set the stopped
flag (and broadcast to waiters). -/
def Stop (st : TPState) : TPState :=
  { st with stopped := true }

/-- One iteration of the worker loop `Worker::_Run` (node_threadpool.cc
lines 40-56): blocking-pop; on none the loop exits (returns false);
otherwise attempt QUEUED→ASSIGNED, invoke `Run()` iff the attempt returned
ASSIGNED, then attempt the transition to COMPLETED and notify completion. -/
def WorkerStep (st : TPState) : TPState × Bool :=
  match BlockingPop st with
  | (st1, none) => (st1, false)
  | (st1, some tid) =>
    let s1 := TryUpdateState (st1.states tid) .ASSIGNED
    let ran2 := if s1 = .ASSIGNED then st1.ran ++ [tid] else st1.ran
    let s2 := TryUpdateState s1 .COMPLETED
    (NotifyOfCompletion
      { st1 with states := updState st1.states tid s2, ran := ran2 }, true)

/-- The state after one worker iteration. -/
def WorkerStepS (st : TPState) : TPState := (WorkerStep st).1

/-- `Threadpool::Post` (node_threadpool.cc lines 409-419): attach a freshly
created TaskState (INITIAL) to the task, push it onto the queue (ignoring the
push result), and return the shared TaskState handle (here: the task id). -/
def Post (st : TPState) : TPState × Nat :=
  let tid := st.nextId
  let st1 := { st with nextId := tid + 1, states := updState st.states tid .INITIAL }
  ((Push st1 tid).1, tid)

/-- C4: `TaskQueue::Push` after `Stop` returns false and leaves the queue
contents and the outstanding-tasks counter (and everything else) unchanged;
before `Stop` it transitions the task's state to QUEUED (leaving it at
CANCELLED when the task was already cancelled), enqueues the task at the
back, increments the outstanding-tasks counter, signals one waiter, and
returns true. -/
theorem c4_push_stop_semantics (st : TPState) (tid : Nat) :
    (st.stopped = true → Push st tid = (st, false)) ∧
    (st.stopped = false →
      (Push st tid).2 = true ∧
      (Push st tid).1.queue = st.queue ++ [tid] ∧
      (Push st tid).1.outstanding = st.outstanding + 1 ∧
      (Push st tid).1.signals = st.signals + 1 ∧
      (st.states tid = .INITIAL → (Push st tid).1.states tid = .QUEUED) ∧
      (st.states tid = .CANCELLED → (Push st tid).1.states tid = .CANCELLED)) := by
  constructor
  · intro h
    simp [Push, h]
  · intro h
    refine ⟨by simp [Push, h], by simp [Push, h], by simp [Push, h],
        by simp [Push, h], ?_, ?_⟩
    · intro hs
      simp [Push, h, updState_same, hs, TryUpdateState, ValidStateTransition]
    · intro hs
      simp [Push, h, updState_same, hs, TryUpdateState, ValidStateTransition]

/-- A fresh queue state with no tasks. -/
def emptyTP : TPState :=
  { states := fun _ => .INITIAL
    queue := []
    outstanding := 0
    stopped := false
    signals := 0
    ran := []
    nextId := 0 }

/-- Witness for C4 at concrete states: a push on the stopped empty queue is
rejected unchanged, and a push of task 0 (INITIAL) on the running empty
queue succeeds, queueing the task. -/
theorem c4_push_stop_semantics_witness :
    Push (Stop emptyTP) 0 = (Stop emptyTP, false) ∧
    (Push emptyTP 0).2 = true ∧
    (Push emptyTP 0).1.queue = [0] ∧
    (Push emptyTP 0).1.states 0 = .QUEUED :=
  ⟨(c4_push_stop_semantics (Stop emptyTP) 0).1 rfl,
   ((c4_push_stop_semantics emptyTP 0).2 rfl).1,
   ((c4_push_stop_semantics emptyTP 0).2 rfl).2.1,
   ((c4_push_stop_semantics emptyTP 0).2 rfl).2.2.2.2.1 rfl⟩

/-- A queue holding exactly one QUEUED task (id 0), as after one `Post` on a
fresh Threadpool. -/
def oneQueuedTP : TPState :=
  { states := updState (fun _ => .INITIAL) 0 .QUEUED
    queue := [0]
    outstanding := 1
    stopped := false
    signals := 1
    ran := []
    nextId := 1 }

/-- Counterexample to C2: with one QUEUED task (id 0) still in the queue at
teardown, after `TaskQueue::Stop` the next worker iteration still pops the
task, invokes its `Run()` (the id lands in `ran`), and drives its state to
COMPLETED — not to the claimed "popped but not run, state remains QUEUED"
(`TaskQueue::BlockingPop` returns a task, not null, whenever the queue is
non-empty, stopped or not). -/
theorem c2_counterexample :
    (WorkerStepS (Stop oneQueuedTP)).ran = [0] ∧
    (WorkerStepS (Stop oneQueuedTP)).states 0 = .COMPLETED ∧
    ¬((WorkerStepS (Stop oneQueuedTP)).ran = [] ∧
      (WorkerStepS (Stop oneQueuedTP)).states 0 = .QUEUED) := by
  refine ⟨rfl, rfl, ?_⟩
  rintro ⟨h, -⟩
  simp [WorkerStepS, WorkerStep, BlockingPop, Stop, oneQueuedTP, updState,
    NotifyOfCompletion, TryUpdateState, ValidStateTransition] at h

/-- C2 amended: at Threadpool teardown, after the queue is stopped, tasks
still queued are not dropped: a worker iteration on a non-empty stopped
queue pops the front task, and when that task is still QUEUED it is
assigned, its `Run()` is invoked, and its state reaches COMPLETED; a worker
exits only when the stopped queue is empty. -/
theorem c2_teardown_runs_queued (st : TPState) (tid : Nat) (rest : List Nat) :
    (st.stopped = true → st.queue = tid :: rest → st.states tid = .QUEUED →
      (WorkerStep st).2 = true ∧
      (WorkerStepS st).ran = st.ran ++ [tid] ∧
      (WorkerStepS st).states tid = .COMPLETED) ∧
    (st.stopped = true → st.queue = [] → WorkerStep st = (st, false)) := by
  constructor
  · intro _ hq hs
    have h1 : TryUpdateState (st.states tid) .ASSIGNED = .ASSIGNED := by
      rw [hs]; decide
    have h2 : TryUpdateState .ASSIGNED .COMPLETED = State.COMPLETED := by decide
    refine ⟨?_, ?_, ?_⟩ <;>
      simp [WorkerStep, WorkerStepS, BlockingPop, hq, h1, h2, updState_same,
        NotifyOfCompletion]
  · intro _ hq
    simp [WorkerStep, BlockingPop, hq]

/-- Witness for C2's amended theorem at the concrete one-task queue: the
stopped queue's task 0 is popped, run and completed, and a second iteration
exits. -/
theorem c2_teardown_runs_queued_witness :
    ((WorkerStep (Stop oneQueuedTP)).2 = true ∧
      (WorkerStepS (Stop oneQueuedTP)).ran = [] ++ [0] ∧
      (WorkerStepS (Stop oneQueuedTP)).states 0 = .COMPLETED) ∧
    WorkerStep (WorkerStepS (Stop oneQueuedTP)) =
      (WorkerStepS (Stop oneQueuedTP), false) :=
  ⟨(c2_teardown_runs_queued (Stop oneQueuedTP) 0 []).1 rfl rfl rfl,
   (c2_teardown_runs_queued (WorkerStepS (Stop oneQueuedTP)) 0 []).2 rfl rfl⟩

/-- A worker iteration touches only the task it pops: any task id outside
the queue keeps its state, stays outside the queue, and is never run. -/
theorem workerStep_untouched (st : TPState) (tid : Nat)
    (hq : tid ∉ st.queue) (hr : tid ∉ st.ran) :
    (WorkerStepS st).states tid = st.states tid ∧
    tid ∉ (WorkerStepS st).queue ∧ tid ∉ (WorkerStepS st).ran := by
  match hqe : st.queue with
  | [] =>
    simp [WorkerStepS, WorkerStep, BlockingPop, hqe, hr]
  | h :: rest =>
    have hne : tid ≠ h := by
      intro he; exact hq (by rw [hqe, he]; exact List.mem_cons_self h rest)
    have hnr : tid ∉ rest := by
      intro he; exact hq (by rw [hqe]; exact List.mem_cons_of_mem h he)
    by_cases hc : TryUpdateState (st.states h) .ASSIGNED = .ASSIGNED <;>
      simp [WorkerStepS, WorkerStep, BlockingPop, hqe, hc, NotifyOfCompletion,
        updState_other _ _ _ _ hne, hnr, hr, hne] at *

/-- Iterated version of `workerStep_untouched`. -/
theorem workerStep_untouched_iter (n : Nat) (st : TPState) (tid : Nat)
    (hq : tid ∉ st.queue) (hr : tid ∉ st.ran) :
    (WorkerStepS^[n] st).states tid = st.states tid ∧
    tid ∉ (WorkerStepS^[n] st).queue ∧ tid ∉ (WorkerStepS^[n] st).ran := by
  induction n generalizing st with
  | zero => exact ⟨rfl, hq, hr⟩
  | succ m ih =>
    obtain ⟨h1, h2, h3⟩ := workerStep_untouched st tid hq hr
    obtain ⟨g1, g2, g3⟩ := ih (WorkerStepS st) h2 h3
    rw [Function.iterate_succ_apply]
    exact ⟨g1.trans h1, g2, g3⟩

/-- C10: `Threadpool::Post` never fails: it always attaches a freshly
created TaskState to the task and returns the handle (the fresh id
`nextId`); when the queue is already stopped the push is silently rejected
(the queue is unchanged), the returned handle's state is INITIAL, and —
since the dropped task is never enqueued — it is never run and its state
remains INITIAL after any number of further worker iterations. -/
theorem c10_post_never_fails (st : TPState) :
    (Post st).2 = st.nextId ∧
    (st.stopped = false → ((Post st).1).states st.nextId = .QUEUED ∧
      ((Post st).1).queue = st.queue ++ [st.nextId]) ∧
    (st.stopped = true →
      ((Post st).1).queue = st.queue ∧
      ((Post st).1).states st.nextId = .INITIAL ∧
      ((∀ t ∈ st.queue, t < st.nextId) → (∀ t ∈ st.ran, t < st.nextId) →
        ∀ n : Nat,
          (WorkerStepS^[n] (Post st).1).states st.nextId = .INITIAL ∧
          st.nextId ∉ (WorkerStepS^[n] (Post st).1).ran)) := by
  refine ⟨rfl, ?_, ?_⟩
  · intro h
    constructor
    · simp [Post, Push, h, updState_same, TryUpdateState, ValidStateTransition]
    · simp [Post, Push, h]
  · intro h
    have hq : ((Post st).1).queue = st.queue := by simp [Post, Push, h]
    have hs : ((Post st).1).states st.nextId = .INITIAL := by
      simp [Post, Push, h, updState_same]
    refine ⟨hq, hs, ?_⟩
    intro hwfq hwfr n
    have hnq : st.nextId ∉ ((Post st).1).queue := by
      rw [hq]
      intro hmem
      exact absurd (hwfq _ hmem) (lt_irrefl _)
    have hnr : st.nextId ∉ ((Post st).1).ran := by
      have : ((Post st).1).ran = st.ran := by simp [Post, Push, h]
      rw [this]
      intro hmem
      exact absurd (hwfr _ hmem) (lt_irrefl _)
    obtain ⟨g1, _, g3⟩ := workerStep_untouched_iter n (Post st).1 st.nextId hnq hnr
    exact ⟨g1.trans hs, g3⟩

/-- Witness for C10 at concrete states: on the running empty queue, `Post`
returns handle 0 and queues the task; on the stopped empty queue, the push
is rejected and after three worker iterations the handle's state is still
INITIAL and the task never ran. -/
theorem c10_post_never_fails_witness :
    (Post emptyTP).2 = 0 ∧
    ((Post emptyTP).1).states 0 = .QUEUED ∧
    ((Post (Stop emptyTP)).1).queue = [] ∧
    (WorkerStepS^[3] (Post (Stop emptyTP)).1).states 0 = .INITIAL ∧
    0 ∉ (WorkerStepS^[3] (Post (Stop emptyTP)).1).ran :=
  ⟨(c10_post_never_fails emptyTP).1,
   (((c10_post_never_fails emptyTP).2.1 rfl)).1,
   ((c10_post_never_fails (Stop emptyTP)).2.2 rfl).1,
   (((c10_post_never_fails (Stop emptyTP)).2.2 rfl).2.2
      (by intro t ht; simp [Stop, emptyTP] at ht)
      (by intro t ht; simp [Stop, emptyTP] at ht) 3).1,
   (((c10_post_never_fails (Stop emptyTP)).2.2 rfl).2.2
      (by intro t ht; simp [Stop, emptyTP] at ht)
      (by intro t ht; simp [Stop, emptyTP] at ht) 3).2⟩

/-! `LibuvExecutor` (node_threadpool.cc lines 126-263). A `uv_work_t`
request is modelled as `Option (Option State)`: `none` is a null request,
`some none` a request whose `reserved[0]` cookie is null, and
`some (some s)` a request whose `LibuvTaskData` cookie stores a TaskState
currently in state `s`. -/

/-- Error code `UV_EINVAL` of the external libuv collaborator (its Unix
value; only its distinctness from `0` and `UV_EBUSY` matters here). -/
def UV_EINVAL : Int := -22

/-- Error code `UV_EBUSY` of the external libuv collaborator (its Unix
value; only its distinctness from `0` and `UV_EINVAL` matters here). -/
def UV_EBUSY : Int := -16

/-- `LibuvExecutor::uv_executor_cancel` (node_threadpool.cc lines 247-263):
return `UV_EINVAL` on a null request or a request without a cookie;
otherwise call `TaskState::Cancel` on the stored state and return `0` on
success, `UV_EBUSY` on failure. Returns the code and the request after the
call. -/
def uv_executor_cancel (req : Option (Option State)) : Int × Option (Option State) :=
  match req with
  | none => (UV_EINVAL, none)
  | some none => (UV_EINVAL, some none)
  | some (some s) =>
    let r := Cancel s
    (if r.2 then 0 else UV_EBUSY, some (some r.1))

/-- Counterexample to C5's characterization of failure as "task already
assigned or completed": on a cookie whose state is ASSIGNED the cancel
attempt SUCCEEDS (ASSIGNED → CANCELLED is a legal transition), so the call
returns 0 and marks the task CANCELLED, not EBUSY. -/
theorem c5_counterexample :
    uv_executor_cancel (some (some .ASSIGNED)) = (0, some (some .CANCELLED)) ∧
    (0 : Int) ≠ UV_EBUSY := by
  constructor
  · rfl
  · decide

/-- C5 amended: `uv_executor_cancel` returns `UV_EINVAL` iff the request is
null or carries no stored cookie; on a request with a cookie in state `s` it
returns `0` iff the cancel attempt succeeds (the post-attempt state is
CANCELLED), and `UV_EBUSY` iff the attempt fails, which happens exactly when
the task is already COMPLETED (a task already ASSIGNED is still
cancellable). -/
theorem c5_uv_executor_cancel_codes (req : Option (Option State)) :
    ((uv_executor_cancel req).1 = UV_EINVAL ↔ (req = none ∨ req = some none)) ∧
    (∀ s : State, req = some (some s) →
      (uv_executor_cancel req).2 = some (some (Cancel s).1) ∧
      ((uv_executor_cancel req).1 = 0 ↔ (Cancel s).1 = .CANCELLED) ∧
      ((uv_executor_cancel req).1 = UV_EBUSY ↔ (Cancel s).1 ≠ .CANCELLED) ∧
      ((uv_executor_cancel req).1 = UV_EBUSY ↔ s = .COMPLETED)) := by
  refine ⟨?_, ?_⟩
  · match req with
    | none => simp [uv_executor_cancel, UV_EINVAL]
    | some none => simp [uv_executor_cancel, UV_EINVAL]
    | some (some s) =>
      by_cases hc : (Cancel s).2 <;>
        simp [uv_executor_cancel, hc, UV_EINVAL, UV_EBUSY]
  · intro s hreq
    subst hreq
    cases s <;> refine ⟨rfl, ?_, ?_, ?_⟩ <;> decide

/-- Witness for C5's amended theorem at concrete requests: a cookieless
request yields EINVAL, a QUEUED cookie yields 0 with the state CANCELLED,
and a COMPLETED cookie yields EBUSY. -/
theorem c5_uv_executor_cancel_codes_witness :
    ((uv_executor_cancel (some none)).1 = UV_EINVAL ↔
      ((some none : Option (Option State)) = none ∨
        (some none : Option (Option State)) = some none)) ∧
    ((uv_executor_cancel (some (some .QUEUED))).1 = 0 ↔
      (Cancel .QUEUED).1 = .CANCELLED) ∧
    ((uv_executor_cancel (some (some .COMPLETED))).1 = UV_EBUSY ↔
      State.COMPLETED = .COMPLETED) :=
  ⟨(c5_uv_executor_cancel_codes (some none)).1,
   (((c5_uv_executor_cancel_codes (some (some .QUEUED))).2 .QUEUED rfl)).2.1,
   (((c5_uv_executor_cancel_codes (some (some .COMPLETED))).2 .COMPLETED
      rfl)).2.2.2⟩

end threadpool

/-! Embedding of `src/node_platform.cc` (namespace `node`). -/

/-- The delay-to-milliseconds computation
`static_cast<uint64_t>(delay_in_seconds_ + 0.5) * 1000` of
`DelayedTaskScheduler::ScheduleTask::Run` (node_platform.cc lines 114-122),
over `ℚ`; the cast of the nonnegative double value truncates, i.e. takes the
floor. This is the timeout passed to `uv_timer_start` for a delayed worker
task. -/
def ScheduleTask_delay_millis (delay_in_seconds : ℚ) : ℤ :=
  ⌊delay_in_seconds + 1 / 2⌋ * 1000

/-- The identical computation
`static_cast<uint64_t>(delayed->timeout + 0.5) * 1000` as it appears in
`PerIsolatePlatformData::FlushForegroundTasksInternal` (node_platform.cc
lines 345-346), the timeout armed for a foreground delayed task. -/
def Flush_delay_millis (timeout : ℚ) : ℤ :=
  ⌊timeout + 1 / 2⌋ * 1000

/-- The rounding named by the spec sentence for C6, written from the spec's
words ("half-even rounding on the fractional part"): round to the nearest
integer, ties to the even neighbour. -/
def specRoundHalfEven (q : ℚ) : ℤ :=
  if q - ⌊q⌋ = 1 / 2 then (if 2 ∣ ⌊q⌋ then ⌊q⌋ else ⌊q⌋ + 1) else round q

/-- Counterexample to C6: at delay 0.5 s both code sites arm a timeout of
1000 ms, while half-even rounding of 0.5 gives 0, so the claimed timeout
`round-half-even(d) * 1000` is wrong at d = 0.5. -/
theorem c6_counterexample :
    ScheduleTask_delay_millis (1 / 2) = 1000 ∧
    Flush_delay_millis (1 / 2) = 1000 ∧
    specRoundHalfEven (1 / 2) * 1000 = 0 := by
  refine ⟨?_, ?_, ?_⟩ <;>
    norm_num [ScheduleTask_delay_millis, Flush_delay_millis, specRoundHalfEven]

/-- C6 amended: for every delayed submission with delay `d` seconds — both
the worker-delayed site in `ScheduleTask::Run` and the foreground-delayed
site in `FlushForegroundTasksInternal` — the one-shot timer's timeout equals
`round(d) * 1000` milliseconds where `round` is round-half-UP on the
fractional part (`⌊d + 1/2⌋`, Mathlib's `round`), not half-even. -/
theorem c6_delay_round_half_up (d : ℚ) :
    ScheduleTask_delay_millis d = round d * 1000 ∧
    Flush_delay_millis d = round d * 1000 := by
  rw [round_eq]
  exact ⟨rfl, rfl⟩

/-- C7: the delay-to-milliseconds computation maps 0.4 s to 0 ms, 0.5 s to
1000 ms, 1.499 s to 1000 ms and 1.5 s to 2000 ms, at both code sites. -/
theorem c7_delay_rounding_examples :
    ScheduleTask_delay_millis (4 / 10) = 0 ∧
    Flush_delay_millis (4 / 10) = 0 ∧
    ScheduleTask_delay_millis (5 / 10) = 1000 ∧
    Flush_delay_millis (5 / 10) = 1000 ∧
    ScheduleTask_delay_millis (1499 / 1000) = 1000 ∧
    Flush_delay_millis (1499 / 1000) = 1000 ∧
    ScheduleTask_delay_millis (15 / 10) = 2000 ∧
    Flush_delay_millis (15 / 10) = 2000 := by
  refine ⟨?_, ?_, ?_, ?_, ?_, ?_, ?_, ?_⟩ <;>
    norm_num [ScheduleTask_delay_millis, Flush_delay_millis]

/-! `PerIsolatePlatformData::FlushForegroundTasksInternal` (node_platform.cc
lines 339-373) with `TaskQueue<T>::Pop` and `TaskQueue<T>::PopAll`
(lines 446-455, 494-500). Foreground tasks are identified by `Nat` ids;
`effects t` lists the tasks that task `t` posts back to the foreground queue
while it runs (via `PostTask`). -/

structure FlushState where
  foreground_tasks : List Nat
  foreground_delayed_tasks : List ℚ
  scheduled_delayed_tasks : List ℤ
  executed : List Nat
deriving DecidableEq, Repr

/-- The run loop over the `PopAll` snapshot: execute each task in order
(`RunForegroundTask`); anything a task posts lands back on the foreground
queue for a later pass. -/
def runTasks (effects : Nat → List Nat) (st : FlushState) : List Nat → FlushState
  | [] => st
  | t :: ts =>
    runTasks effects
      { st with
          executed := st.executed ++ [t]
          foreground_tasks := st.foreground_tasks ++ effects t } ts

/-- `FlushForegroundTasksInternal`: drain the foreground-delayed queue,
arming a one-shot timer with timeout `Flush_delay_millis` for each entry and
recording it in `scheduled_delayed_tasks_`; then snapshot the foreground
queue with `PopAll` and run every snapshotted task in FIFO order; return
`did_work` — set iff some delayed timer was armed or some task was run. -/
def FlushForegroundTasksInternal (effects : Nat → List Nat) (st : FlushState) :
    FlushState × Bool :=
  let delayed := st.foreground_delayed_tasks
  let st1 :=
    { st with
        foreground_delayed_tasks := ([] : List ℚ)
        scheduled_delayed_tasks :=
          st.scheduled_delayed_tasks ++ delayed.map Flush_delay_millis }
  let tasks := st1.foreground_tasks
  let st2 := { st1 with foreground_tasks := ([] : List Nat) }
  (runTasks effects st2 tasks, !delayed.isEmpty || !tasks.isEmpty)

theorem runTasks_eq (effects : Nat → List Nat) (st : FlushState)
    (ts : List Nat) :
    runTasks effects st ts =
      { st with
          executed := st.executed ++ ts
          foreground_tasks := st.foreground_tasks ++ (ts.map effects).flatten } := by
  induction ts generalizing st with
  | nil => simp [runTasks]
  | cons t ts ih => simp [runTasks, ih]

/-- C9: every call of the per-loop flush executes exactly the foreground
tasks present at the `pop_all` snapshot point, in FIFO order (appended in
order to the execution trace); tasks posted to the foreground queue during
that execution are not run in this pass but are left on the foreground queue
for the next one; and the call returns true iff at least one delayed timer
was armed or at least one task was executed. -/
theorem c9_flush_snapshot_fifo (effects : Nat → List Nat) (st : FlushState) :
    (FlushForegroundTasksInternal effects st).1.executed =
      st.executed ++ st.foreground_tasks ∧
    (FlushForegroundTasksInternal effects st).1.foreground_tasks =
      (st.foreground_tasks.map effects).flatten ∧
    (FlushForegroundTasksInternal effects st).1.scheduled_delayed_tasks =
      st.scheduled_delayed_tasks ++
        st.foreground_delayed_tasks.map Flush_delay_millis ∧
    ((FlushForegroundTasksInternal effects st).2 = true ↔
      (st.foreground_delayed_tasks ≠ [] ∨ st.foreground_tasks ≠ [])) := by
  refine ⟨?_, ?_, ?_, ?_⟩ <;>
    simp [FlushForegroundTasksInternal, runTasks_eq, List.isEmpty_iff,
      or_comm]

/-! `NodePlatform::RegisterIsolate` / `NodePlatform::UnregisterIsolate`
(node_platform.cc lines 264-286) with `PerIsolatePlatformData::ref` /
`unref` (lines 244-250). Isolates and loops are identified by `Nat`; the
`per_isolate_` map is a function `Nat → Option Runner`; a `CHECK` failure is
`none` at the operation level. -/

structure Runner where
  loop : Nat
  ref_count : Int
  shut_down : Bool
deriving DecidableEq, Repr

/-- Modelled from the spec: the initial reference count of a freshly
constructed `PerIsolatePlatformData` is declared in `node_platform.h`, which
is not among the sources. Per the spec ("the PerLoopRunner is kept alive by
the Platform mapping plus a refcount incremented at each
engine-registration of the same instance. Unregistration decrements; on
zero, the runner is shut down", and "Registering the same engine twice then
unregistering once must leave the runner alive"), a newly inserted runner
carries one reference from its own registration. -/
def mkRunner (loop : Nat) : Runner :=
  { loop := loop, ref_count := 1, shut_down := false }

/-- `NodePlatform::RegisterIsolate`: under the map mutex, if a runner exists
for the isolate, `CHECK_EQ` its loop against the given one (abort — `none` —
on mismatch) and increment its refcount; otherwise insert a fresh runner for
the loop. -/
def RegisterIsolate (m : Nat → Option Runner) (iso loop : Nat) :
    Option (Nat → Option Runner) :=
  match m iso with
  | some existing =>
    if loop = existing.loop then
      some (fun j => if j = iso then
        some { existing with ref_count := existing.ref_count + 1 } else m j)
    else none
  | none => some (fun j => if j = iso then some (mkRunner loop) else m j)

/-- `NodePlatform::UnregisterIsolate`: under the map mutex, `CHECK` the
runner exists (abort — `none` — otherwise); decrement its refcount; when the
count reaches zero, shut the runner down and erase it from the map,
otherwise keep it registered. -/
def UnregisterIsolate (m : Nat → Option Runner) (iso : Nat) :
    Option (Nat → Option Runner) :=
  match m iso with
  | none => none
  | some existing =>
    if existing.ref_count - 1 = 0 then
      some (fun j => if j = iso then none else m j)
    else
      some (fun j => if j = iso then
        some { existing with ref_count := existing.ref_count - 1 } else m j)

/-- The empty `per_isolate_` map. -/
def emptyIsolates : Nat → Option Runner := fun _ => none

/-- C8: registering the same isolate twice with the same loop and then
unregistering it once leaves its runner alive and present in the map with
one reference left (neither shut down nor removed; every step succeeds —
no `CHECK` fires); and in general, an unregistration removes (and shuts
down) the runner exactly when it brings the reference count to zero, and
otherwise only decrements the count, keeping the runner registered and not
shut down. -/
theorem c8_register_twice_unregister_once (iso loop : Nat) :
    (((RegisterIsolate emptyIsolates iso loop).bind
        (fun m1 => RegisterIsolate m1 iso loop)).bind
        (fun m2 => UnregisterIsolate m2 iso)).bind (fun m3 => m3 iso) =
      some { loop := loop, ref_count := 1, shut_down := false } ∧
    (∀ (m : Nat → Option Runner) (i : Nat) (r : Runner), m i = some r →
      (r.ref_count = 1 →
        (UnregisterIsolate m i).map (fun m' => m' i) = some none) ∧
      (r.ref_count ≠ 1 →
        (UnregisterIsolate m i).map (fun m' => m' i) =
          some (some { r with ref_count := r.ref_count - 1 }))) := by
  constructor
  · simp [RegisterIsolate, UnregisterIsolate, emptyIsolates, mkRunner]
  · intro m i r hm
    constructor
    · intro hrc
      simp [UnregisterIsolate, hm, hrc]
    · intro hrc
      have hne : ¬(r.ref_count - 1 = 0) := by omega
      simp [UnregisterIsolate, hm, hne]

/-- Witness for C8 at a concrete map: isolate 0, loop 7, registered twice
and unregistered once from the empty map; and the general clause applied to
a map holding a runner with two references and to one with a single
reference. -/
theorem c8_register_twice_unregister_once_witness :
    (((RegisterIsolate emptyIsolates 0 7).bind
        (fun m1 => RegisterIsolate m1 0 7)).bind
        (fun m2 => UnregisterIsolate m2 0)).bind (fun m3 => m3 0) =
      some { loop := 7, ref_count := 1, shut_down := false } ∧
    (UnregisterIsolate
        (fun j => if j = 0 then
          some { loop := 7, ref_count := 2, shut_down := false } else none)
        0).map (fun m' => m' 0) =
      some (some { loop := 7, ref_count := 2 - 1, shut_down := false }) ∧
    (UnregisterIsolate
        (fun j => if j = 0 then
          some { loop := 7, ref_count := 1, shut_down := false } else none)
        0).map (fun m' => m' 0) = some none :=
  ⟨(c8_register_twice_unregister_once 0 7).1,
   ((c8_register_twice_unregister_once 0 7).2
      (fun j => if j = 0 then
        some { loop := 7, ref_count := 2, shut_down := false } else none)
      0 { loop := 7, ref_count := 2, shut_down := false } (by simp)).2
      (by decide),
   ((c8_register_twice_unregister_once 0 7).2
      (fun j => if j = 0 then
        some { loop := 7, ref_count := 1, shut_down := false } else none)
      0 { loop := 7, ref_count := 1, shut_down := false } (by simp)).1 rfl⟩

end node
